import Mathlib

/-!
Verification of the VCA control-voltage-to-gain transfer characteristic
implemented in `scripts/tools/plot_vca_curve.py`.

The source defines, at module scope, five calibration constants and two pure
functions `vca_voltage_to_gain` and `ideal_voltage_to_gain`, plus an inline
linear-to-decibel conversion used when plotting.  We embed them shallowly over
the real numbers: Python's `10 ** x` becomes `Real.rpow`, `np.log10` becomes
`Real.logb 10`, and the branch structure is preserved with `if` on real
comparisons.  The specification's parameterized `GainModel` / `IdealGainModel`
are embedded as functions over an explicit `GainParameters` record; the record
of default parameters instantiates them to exactly the source functions
(definitionally, see `evaluate_defaultParams_eq_source` and
`ideal_evaluate_defaultParams_eq_source`).
-/

namespace SynthiVCA

open Real Set Filter Topology

/-- Module-scope calibration constant `VCA_DB_PER_VOLT = 10` of the source. -/
noncomputable def VCA_DB_PER_VOLT : ℝ := 10

/-- Module-scope calibration constant `VCA_CUTOFF_VOLTAGE = -12` of the source. -/
noncomputable def VCA_CUTOFF_VOLTAGE : ℝ := -12

/-- Module-scope calibration constant `LINEAR_THRESHOLD = 0` of the source. -/
noncomputable def LINEAR_THRESHOLD : ℝ := 0

/-- Module-scope calibration constant `HARD_LIMIT = 3.0` of the source. -/
noncomputable def HARD_LIMIT : ℝ := 3

/-- Module-scope calibration constant `SOFTNESS = 2.0` of the source. -/
noncomputable def SOFTNESS : ℝ := 2

/-- Embedding of `vca_voltage_to_gain` from `plot_vca_curve.py` (lines 19-40):
cutoff zone, logarithmic zone, and rational soft-knee saturation zone. -/
noncomputable def vca_voltage_to_gain (voltage : ℝ) : ℝ :=
  let soft_zone_width := HARD_LIMIT - LINEAR_THRESHOLD
  if voltage ≤ VCA_CUTOFF_VOLTAGE then 0
  else if voltage ≤ LINEAR_THRESHOLD then
    (10 : ℝ) ^ (voltage * VCA_DB_PER_VOLT / 20)
  else
    let excess_voltage := voltage - LINEAR_THRESHOLD
    let r := excess_voltage / soft_zone_width
    let compressed_excess := soft_zone_width * r / (1 + r * SOFTNESS)
    let saturated_voltage := LINEAR_THRESHOLD + compressed_excess
    let dB := saturated_voltage * VCA_DB_PER_VOLT
    (10 : ℝ) ^ (dB / 20)

/-- Embedding of `ideal_voltage_to_gain` from `plot_vca_curve.py` (lines 42-47):
the unsaturated reference curve, zones 1 and 2 only. -/
noncomputable def ideal_voltage_to_gain (voltage : ℝ) : ℝ :=
  if voltage ≤ VCA_CUTOFF_VOLTAGE then 0
  else
    let dB := voltage * VCA_DB_PER_VOLT
    (10 : ℝ) ^ (dB / 20)

/-- The specification's immutable calibration record (spec section 3). -/
structure GainParameters where
  dbPerVolt : ℝ
  cutoffVoltage : ℝ
  linearThreshold : ℝ
  hardLimit : ℝ
  softness : ℝ

/-- The default calibration set used by the source's module constants:
`dbPerVolt = 10`, `cutoffVoltage = -12`, `linearThreshold = 0`,
`hardLimit = 3.0`, `softness = 2.0`. -/
noncomputable def defaultParams : GainParameters :=
  ⟨VCA_DB_PER_VOLT, VCA_CUTOFF_VOLTAGE, LINEAR_THRESHOLD, HARD_LIMIT, SOFTNESS⟩

namespace GainModel

/-- The spec's `GainModel.evaluate`: `vca_voltage_to_gain` with the module
constants replaced by an explicit parameter record, branch for branch. -/
noncomputable def evaluate (p : GainParameters) (voltage : ℝ) : ℝ :=
  let soft_zone_width := p.hardLimit - p.linearThreshold
  if voltage ≤ p.cutoffVoltage then 0
  else if voltage ≤ p.linearThreshold then
    (10 : ℝ) ^ (voltage * p.dbPerVolt / 20)
  else
    let excess_voltage := voltage - p.linearThreshold
    let r := excess_voltage / soft_zone_width
    let compressed_excess := soft_zone_width * r / (1 + r * p.softness)
    let saturated_voltage := p.linearThreshold + compressed_excess
    let dB := saturated_voltage * p.dbPerVolt
    (10 : ℝ) ^ (dB / 20)

end GainModel

namespace IdealGainModel

/-- The spec's `IdealGainModel.evaluate`: `ideal_voltage_to_gain` with the
module constants replaced by an explicit parameter record. -/
noncomputable def evaluate (p : GainParameters) (voltage : ℝ) : ℝ :=
  if voltage ≤ p.cutoffVoltage then 0
  else
    let dB := voltage * p.dbPerVolt
    (10 : ℝ) ^ (dB / 20)

end IdealGainModel

/-- The parameterized evaluator at the default record is definitionally the
source function. -/
theorem evaluate_defaultParams_eq_source (v : ℝ) :
    GainModel.evaluate defaultParams v = vca_voltage_to_gain v := rfl

/-- The parameterized ideal evaluator at the default record is definitionally
the source function. -/
theorem ideal_evaluate_defaultParams_eq_source (v : ℝ) :
    IdealGainModel.evaluate defaultParams v = ideal_voltage_to_gain v := rfl

/-- Linear-gain-to-decibel conversion used by the plotting section
(`plot_vca_curve.py` line 90): `20 * np.log10(g) if g > 1e-10 else -200`. -/
noncomputable def linearToDb (g : ℝ) : ℝ :=
  if 1e-10 < g then 20 * Real.logb 10 g else -200

/-- Closed form of the default-parameter evaluator, obtained by unfolding the
module constants. -/
theorem evaluate_default_eq (v : ℝ) :
    GainModel.evaluate defaultParams v =
      if v ≤ -12 then 0
      else if v ≤ 0 then (10 : ℝ) ^ (v * 10 / 20)
      else (10 : ℝ) ^ ((0 + (3 - 0) * ((v - 0) / (3 - 0)) / (1 + (v - 0) / (3 - 0) * 2)) * 10 / 20) :=
  rfl

/-- Closed form of the default-parameter ideal evaluator. -/
theorem ideal_default_eq (v : ℝ) :
    IdealGainModel.evaluate defaultParams v =
      if v ≤ -12 then 0 else (10 : ℝ) ^ (v * 10 / 20) :=
  rfl

/-- In the cutoff zone the gain is zero. -/
theorem evaluate_default_cutoff {v : ℝ} (h : v ≤ -12) :
    GainModel.evaluate defaultParams v = 0 := by
  rw [evaluate_default_eq, if_pos h]

/-- In the linear-log zone the gain is `10 ^ (v * 10 / 20)`. -/
theorem evaluate_default_linear {v : ℝ} (h1 : -12 < v) (h2 : v ≤ 0) :
    GainModel.evaluate defaultParams v = (10 : ℝ) ^ (v * 10 / 20) := by
  rw [evaluate_default_eq, if_neg (not_le.mpr h1), if_pos h2]

/-- In the saturation zone the gain follows the compressed-excess formula. -/
theorem evaluate_default_sat {v : ℝ} (h : 0 < v) :
    GainModel.evaluate defaultParams v =
      (10 : ℝ) ^ ((0 + 3 * (v / 3) / (1 + v / 3 * 2)) * 10 / 20) := by
  rw [evaluate_default_eq, if_neg (by linarith), if_neg (not_le.mpr h)]
  norm_num

/-- The saturated voltage as a function of the input voltage above the cutoff:
the identity below the linear threshold and the rational soft knee above it. -/
noncomputable def satCurve (v : ℝ) : ℝ :=
  if v ≤ 0 then v else 3 * v / (3 + 2 * v)

/-- Above the cutoff, the gain is `10` raised to half the saturated voltage. -/
theorem evaluate_default_pos {v : ℝ} (h : -12 < v) :
    GainModel.evaluate defaultParams v = (10 : ℝ) ^ (satCurve v / 2) := by
  rcases le_or_lt v 0 with hv | hv
  · rw [evaluate_default_linear h hv, satCurve, if_pos hv]
    congr 1
    ring
  · rw [evaluate_default_sat hv, satCurve, if_neg (not_le.mpr hv)]
    congr 1
    have h3 : (1 : ℝ) + v / 3 * 2 ≠ 0 := by positivity
    field_simp
    ring

/-- The ideal gain above the cutoff is `10` raised to half the voltage. -/
theorem ideal_default_pos {v : ℝ} (h : -12 < v) :
    IdealGainModel.evaluate defaultParams v = (10 : ℝ) ^ (v / 2) := by
  rw [ideal_default_eq, if_neg (not_le.mpr h)]
  congr 1
  ring

/-- The saturated voltage never exceeds the input voltage. -/
theorem satCurve_le_self (v : ℝ) : satCurve v ≤ v := by
  rw [satCurve]
  split_ifs with h
  · exact le_rfl
  · push_neg at h
    rw [div_le_iff₀ (by linarith)]
    nlinarith

/-- Above the linear threshold the saturated voltage is strictly below the
input voltage. -/
theorem satCurve_lt_self {v : ℝ} (h : 0 < v) : satCurve v < v := by
  rw [satCurve, if_neg (not_le.mpr h), div_lt_iff₀ (by linarith)]
  nlinarith

/-- The saturated voltage is globally monotone. -/
theorem satCurve_mono : Monotone satCurve := by
  intro a b hab
  rw [satCurve, satCurve]
  split_ifs with ha hb hb
  · exact hab
  · push_neg at hb
    have : (0 : ℝ) ≤ 3 * b / (3 + 2 * b) := by positivity
    linarith
  · push_neg at ha
    linarith
  · push_neg at ha hb
    rw [div_le_div_iff₀ (by linarith) (by linarith)]
    nlinarith

/-- The saturated voltage stays strictly below the asymptote `3/2`. -/
theorem satCurve_lt_asymptote (v : ℝ) : satCurve v < 3 / 2 := by
  rw [satCurve]
  split_ifs with h
  · linarith
  · push_neg at h
    rw [div_lt_div_iff₀ (by linarith) (by norm_num)]
    nlinarith

/-- Above the cutoff the saturated voltage stays strictly above `-12`. -/
theorem satCurve_gt_cutoff {v : ℝ} (h : -12 < v) : -12 < satCurve v := by
  rw [satCurve]
  split_ifs with hv
  · exact h
  · push_neg at hv
    have : (0 : ℝ) ≤ 3 * v / (3 + 2 * v) := by positivity
    linarith

/-- The default-parameter gain is strictly below `10 ^ (3/4)` everywhere. -/
theorem evaluate_default_lt_bound (v : ℝ) :
    GainModel.evaluate defaultParams v < (10 : ℝ) ^ ((3 : ℝ) / 4) := by
  rcases le_or_lt v (-12) with h | h
  · rw [evaluate_default_cutoff h]
    exact Real.rpow_pos_of_pos (by norm_num) _
  · rw [evaluate_default_pos h]
    rw [Real.rpow_lt_rpow_left_iff (by norm_num)]
    have := satCurve_lt_asymptote v
    linarith

/-- The default-parameter gain is nonnegative everywhere. -/
theorem evaluate_default_nonneg (v : ℝ) :
    0 ≤ GainModel.evaluate defaultParams v := by
  rcases le_or_lt v (-12) with h | h
  · rw [evaluate_default_cutoff h]
  · rw [evaluate_default_pos h]
    exact (Real.rpow_pos_of_pos (by norm_num) _).le

/-- Claim C1: with the default parameters the saturation zone of
`GainModel.evaluate` follows the stated steps (`ratio = excessVoltage /
softZoneWidth`, `compressedExcess = softZoneWidth * ratio / (1 + ratio *
softness)`, `gain = 10 ^ (saturatedVoltage * dbPerVolt / 20)`); in particular
`evaluate 3 = 10 ^ (1/2)` (ratio 1, compressed excess 1, 10 dB) and
`evaluate 6 = 10 ^ (3/5)` (ratio 2, compressed excess 1.2, 12 dB), which is
exactly the spec's `10 ^ 0.6`.  The equalities are exact, hence within the
spec's `1e-6` tolerance. -/
theorem claim_C1_saturation_steps :
    (∀ v : ℝ, 0 < v →
        GainModel.evaluate defaultParams v =
          (10 : ℝ) ^ ((0 + 3 * (v / 3) / (1 + v / 3 * 2)) * 10 / 20)) ∧
      GainModel.evaluate defaultParams 3 = (10 : ℝ) ^ ((1 : ℝ) / 2) ∧
      GainModel.evaluate defaultParams 6 = (10 : ℝ) ^ ((3 : ℝ) / 5) := by
  refine ⟨fun v hv => evaluate_default_sat hv, ?_, ?_⟩
  · rw [evaluate_default_sat (by norm_num : (0 : ℝ) < 3)]
    norm_num
  · rw [evaluate_default_sat (by norm_num : (0 : ℝ) < 6)]
    norm_num

/-- Witness for C1: the saturation formula instantiated at voltage `3`. -/
theorem claim_C1_saturation_steps_witness :
    GainModel.evaluate defaultParams 3 =
      (10 : ℝ) ^ ((0 + 3 * ((3 : ℝ) / 3) / (1 + (3 : ℝ) / 3 * 2)) * 10 / 20) :=
  claim_C1_saturation_steps.1 3 (by norm_num)

/-- Claim C4: for every voltage at or below the cutoff (`-12` with the
defaults), both `GainModel.evaluate` and `IdealGainModel.evaluate` return
exactly `0`. -/
theorem claim_C4_cutoff_zone (v : ℝ) (h : v ≤ -12) :
    GainModel.evaluate defaultParams v = 0 ∧
      IdealGainModel.evaluate defaultParams v = 0 := by
  refine ⟨evaluate_default_cutoff h, ?_⟩
  rw [ideal_default_eq, if_pos h]

/-- Witness for C4: both evaluators vanish at `-50`. -/
theorem claim_C4_cutoff_zone_witness :
    GainModel.evaluate defaultParams (-50) = 0 ∧
      IdealGainModel.evaluate defaultParams (-50) = 0 :=
  claim_C4_cutoff_zone (-50) (by norm_num)

/-- Claim C5: in the linear-log zone (`-12 < v ≤ 0` with the defaults) the
gain is `10 ^ (v * dbPerVolt / 20)`; in particular `evaluate (-6) = 1/1000`
and `evaluate 0 = 1`, exactly (hence within the spec's `1e-9` tolerance). -/
theorem claim_C5_linear_log_zone :
    (∀ v : ℝ, -12 < v → v ≤ 0 →
        GainModel.evaluate defaultParams v = (10 : ℝ) ^ (v * 10 / 20)) ∧
      GainModel.evaluate defaultParams (-6) = 1 / 1000 ∧
      GainModel.evaluate defaultParams 0 = 1 := by
  refine ⟨fun v h1 h2 => evaluate_default_linear h1 h2, ?_, ?_⟩
  · rw [evaluate_default_linear (by norm_num) (by norm_num)]
    have he : ((-6 : ℝ) * 10 / 20) = ((-3 : ℤ) : ℝ) := by norm_num
    rw [he, Real.rpow_intCast]
    norm_num
  · rw [evaluate_default_linear (by norm_num) le_rfl]
    have he : ((0 : ℝ) * 10 / 20) = 0 := by norm_num
    rw [he, Real.rpow_zero]

/-- Witness for C5: the linear-log formula instantiated at voltage `-6`. -/
theorem claim_C5_linear_log_zone_witness :
    GainModel.evaluate defaultParams (-6) = (10 : ℝ) ^ ((-6 : ℝ) * 10 / 20) :=
  claim_C5_linear_log_zone.1 (-6) (by norm_num) (by norm_num)

/-- Claim C10: the decibel conversion helper returns the fixed floor `-200`
whenever the gain is at most the `1e-10` epsilon floor, and `20 * log10 g`
otherwise; the logarithm branch is only taken for strictly positive gain. -/
theorem claim_C10_linear_to_db (g : ℝ) :
    (g ≤ 1e-10 → linearToDb g = -200) ∧
      (1e-10 < g → linearToDb g = 20 * Real.logb 10 g ∧ 0 < g) := by
  constructor
  · intro h
    rw [linearToDb, if_neg (not_lt.mpr h)]
  · intro h
    refine ⟨?_, lt_trans (by norm_num) h⟩
    rw [linearToDb, if_pos h]

/-- Witness for C10: the floor at gain `0` and the logarithm branch at
gain `1`. -/
theorem claim_C10_linear_to_db_witness :
    linearToDb 0 = -200 ∧ (linearToDb 1 = 20 * Real.logb 10 1 ∧ (0 : ℝ) < 1) :=
  ⟨(claim_C10_linear_to_db 0).1 (by norm_num),
    (claim_C10_linear_to_db 1).2 (by norm_num)⟩

/-- Claim C2: for every control voltage the default-parameter gain is
nonnegative and strictly below `10 ^ (3/4)`, the instantiation of the spec's
bound `10 ^ ((dbPerVolt * (linearThreshold + softZoneWidth / softness)) / 20)
= 10 ^ ((10 * (0 + 3/2)) / 20)` at the defaults. -/
theorem claim_C2_range_bounds (v : ℝ) :
    0 ≤ GainModel.evaluate defaultParams v ∧
      GainModel.evaluate defaultParams v < (10 : ℝ) ^ ((3 : ℝ) / 4) :=
  ⟨evaluate_default_nonneg v, evaluate_default_lt_bound v⟩

/-- Claim C3: the default-parameter gain is non-decreasing above the cutoff:
`v1 < v2` with both above `-12` implies `evaluate v1 ≤ evaluate v2`. -/
theorem claim_C3_monotone (v1 v2 : ℝ) (h1 : -12 < v1) (h2 : -12 < v2)
    (hlt : v1 < v2) :
    GainModel.evaluate defaultParams v1 ≤ GainModel.evaluate defaultParams v2 := by
  rw [evaluate_default_pos h1, evaluate_default_pos h2,
    Real.rpow_le_rpow_left_iff (by norm_num : (1 : ℝ) < 10)]
  have := satCurve_mono hlt.le
  linarith

/-- Witness for C3: monotonicity instantiated at the pair `(0, 1)`. -/
theorem claim_C3_monotone_witness :
    GainModel.evaluate defaultParams 0 ≤ GainModel.evaluate defaultParams 1 :=
  claim_C3_monotone 0 1 (by norm_num) (by norm_num) (by norm_num)

/-- Claim C8: the ideal model is unbounded (every bound `M` is exceeded at
some voltage) while the saturating model stays below the constant
`10 ^ (3/4)` everywhere. -/
theorem claim_C8_ideal_unbounded_real_bounded :
    (∀ M : ℝ, ∃ v : ℝ, M < IdealGainModel.evaluate defaultParams v) ∧
      ∀ v : ℝ, GainModel.evaluate defaultParams v ≤ (10 : ℝ) ^ ((3 : ℝ) / 4) := by
  constructor
  · intro M
    refine ⟨2 * (Real.logb 10 (max M 1) + 1), ?_⟩
    have hx1 : (1 : ℝ) ≤ max M 1 := le_max_right M 1
    have hx0 : (0 : ℝ) < max M 1 := by linarith
    have hlog : 0 ≤ Real.logb 10 (max M 1) :=
      Real.logb_nonneg (by norm_num) hx1
    have hv2 : 2 * (Real.logb 10 (max M 1) + 1) / 2 =
        Real.logb 10 (max M 1) + 1 := by ring
    rw [ideal_default_pos (by linarith), hv2, Real.rpow_add (by norm_num),
      Real.rpow_logb (by norm_num) (by norm_num) hx0, Real.rpow_one]
    have hM : M ≤ max M 1 := le_max_left M 1
    nlinarith
  · exact fun v => (evaluate_default_lt_bound v).le

/-- Claim C9: the saturating model never exceeds the ideal model; they agree
exactly at and below the linear threshold and the inequality is strict above
it. -/
theorem claim_C9_real_le_ideal :
    (∀ v : ℝ, GainModel.evaluate defaultParams v ≤
        IdealGainModel.evaluate defaultParams v) ∧
      (∀ v : ℝ, v ≤ 0 →
        GainModel.evaluate defaultParams v =
          IdealGainModel.evaluate defaultParams v) ∧
      ∀ v : ℝ, 0 < v →
        GainModel.evaluate defaultParams v <
          IdealGainModel.evaluate defaultParams v := by
  refine ⟨fun v => ?_, fun v hv => ?_, fun v hv => ?_⟩
  · rcases le_or_lt v (-12) with h | h
    · rw [evaluate_default_cutoff h, ideal_default_eq, if_pos h]
    · rw [evaluate_default_pos h, ideal_default_pos h,
        Real.rpow_le_rpow_left_iff (by norm_num : (1 : ℝ) < 10)]
      have := satCurve_le_self v
      linarith
  · rcases le_or_lt v (-12) with h | h
    · rw [evaluate_default_cutoff h, ideal_default_eq, if_pos h]
    · rw [evaluate_default_pos h, ideal_default_pos h, satCurve, if_pos hv]
  · rw [evaluate_default_pos (by linarith), ideal_default_pos (by linarith),
      Real.rpow_lt_rpow_left_iff (by norm_num : (1 : ℝ) < 10)]
    have := satCurve_lt_self hv
    linarith

/-- Witness for C9: exact agreement at `-1` and strict inequality at `1`. -/
theorem claim_C9_real_le_ideal_witness :
    GainModel.evaluate defaultParams (-1) =
        IdealGainModel.evaluate defaultParams (-1) ∧
      GainModel.evaluate defaultParams 1 <
        IdealGainModel.evaluate defaultParams 1 :=
  ⟨claim_C9_real_le_ideal.2.1 (-1) (by norm_num),
    claim_C9_real_le_ideal.2.2 1 (by norm_num)⟩

/-- Claim C6: the saturation-zone formula evaluated at the linear threshold
gives exactly the linear-log value there (`ratio = 0`, both branches give
`10 ^ 0 = 1` at the defaults), and consequently the default-parameter
evaluator is continuous at the linear threshold `0`. -/
theorem claim_C6_boundary_continuity :
    (10 : ℝ) ^ ((0 + 3 * ((0 : ℝ) / 3) / (1 + (0 : ℝ) / 3 * 2)) * 10 / 20) =
        (10 : ℝ) ^ ((0 : ℝ) * 10 / 20) ∧
      ContinuousAt (GainModel.evaluate defaultParams) 0 := by
  have h10 : (10 : ℝ) ≠ 0 := by norm_num
  constructor
  · norm_num
  · have hf1 : ContinuousAt (fun v : ℝ => (10 : ℝ) ^ (v * 10 / 20)) 0 :=
      (Real.continuousAt_const_rpow h10).comp
        (((continuous_id.mul continuous_const).div_const 20).continuousAt)
    have cwa1 : ContinuousWithinAt (GainModel.evaluate defaultParams) (Iic 0) 0 := by
      refine hf1.continuousWithinAt.congr_of_eventuallyEq ?_ ?_
      · have hm : ∀ᶠ y in 𝓝[Iic (0 : ℝ)] 0, y ∈ Iic (0 : ℝ) :=
          eventually_mem_nhdsWithin
        have hgt : ∀ᶠ y in 𝓝[Iic (0 : ℝ)] 0, (-12 : ℝ) < y :=
          (eventually_gt_nhds (by norm_num : (-12 : ℝ) < 0)).filter_mono
            nhdsWithin_le_nhds
        exact (hm.and hgt).mono fun y hy => evaluate_default_linear hy.2 hy.1
      · exact evaluate_default_linear (by norm_num) le_rfl
    have hinner2 : ContinuousAt
        (fun v : ℝ => (0 + 3 * (v / 3) / (1 + v / 3 * 2)) * 10 / 20) 0 := by
      have hnum : Continuous fun v : ℝ => 3 * (v / 3) :=
        continuous_const.mul (continuous_id.div_const 3)
      have hden : Continuous fun v : ℝ => 1 + v / 3 * 2 :=
        continuous_const.add ((continuous_id.div_const 3).mul continuous_const)
      have hdiv : ContinuousAt (fun v : ℝ => 3 * (v / 3) / (1 + v / 3 * 2)) 0 :=
        hnum.continuousAt.div hden.continuousAt (by norm_num)
      exact ((continuousAt_const.add hdiv).mul continuousAt_const).div_const 20
    have hf2 : ContinuousAt
        (fun v : ℝ => (10 : ℝ) ^ ((0 + 3 * (v / 3) / (1 + v / 3 * 2)) * 10 / 20)) 0 :=
      (Real.continuousAt_const_rpow h10).comp hinner2
    have cwa2 : ContinuousWithinAt (GainModel.evaluate defaultParams) (Ioi 0) 0 := by
      refine hf2.continuousWithinAt.congr_of_eventuallyEq ?_ ?_
      · exact (eventually_mem_nhdsWithin).mono fun y hy => evaluate_default_sat hy
      · rw [evaluate_default_linear (by norm_num) le_rfl]
        congr 1
        norm_num
    have hu := cwa1.union cwa2
    rw [Set.Iic_union_Ioi] at hu
    exact (continuousWithinAt_univ _ _).mp hu

/-- Claim C7: the default-parameter evaluator is discontinuous at the cutoff:
it returns `0` at `-12`, every voltage above `-12` produces a gain strictly
above `10 ^ (-6)` (the linear-log value at the cutoff itself), and the
function is not continuous at `-12` — a jump of at least `10 ^ (-6)`. -/
theorem claim_C7_cutoff_discontinuity :
    GainModel.evaluate defaultParams (-12) = 0 ∧
      (∀ v : ℝ, -12 < v →
        (10 : ℝ) ^ (-6 : ℝ) < GainModel.evaluate defaultParams v) ∧
      ¬ ContinuousAt (GainModel.evaluate defaultParams) (-12) := by
  have hgt : ∀ v : ℝ, -12 < v →
      (10 : ℝ) ^ (-6 : ℝ) < GainModel.evaluate defaultParams v := by
    intro v hv
    rw [evaluate_default_pos hv,
      Real.rpow_lt_rpow_left_iff (by norm_num : (1 : ℝ) < 10)]
    have := satCurve_gt_cutoff hv
    linarith
  refine ⟨evaluate_default_cutoff le_rfl, hgt, ?_⟩
  intro hc
  have h0 : GainModel.evaluate defaultParams (-12) = 0 :=
    evaluate_default_cutoff le_rfl
  have ht : Tendsto (GainModel.evaluate defaultParams)
      (𝓝[>] (-12 : ℝ)) (𝓝 0) := by
    have h := hc.tendsto
    rw [h0] at h
    exact h.mono_left nhdsWithin_le_nhds
  have hev : ∀ᶠ v in 𝓝[>] (-12 : ℝ),
      GainModel.evaluate defaultParams v < (10 : ℝ) ^ (-6 : ℝ) :=
    ht.eventually_lt_const (Real.rpow_pos_of_pos (by norm_num) _)
  have hmem : ∀ᶠ v in 𝓝[>] (-12 : ℝ), v ∈ Ioi (-12 : ℝ) :=
    eventually_mem_nhdsWithin
  obtain ⟨v, hv1, hv2⟩ := (hev.and hmem).exists
  have := hgt v hv2
  linarith

/-- Witness for C7: the jump bound instantiated at voltage `0`. -/
theorem claim_C7_cutoff_discontinuity_witness :
    (10 : ℝ) ^ (-6 : ℝ) < GainModel.evaluate defaultParams 0 :=
  claim_C7_cutoff_discontinuity.2.1 0 (by norm_num)

end SynthiVCA
